import Mathlib

/-!
Shallow embedding of `cfncli/cli/cleanup_environment.py` from the
`cloudformation-stack-cleanup` repository.

The boto3 clients are replaced by explicit provider inventories (the pages the
paginators would yield) and by explicit outcomes of the provider's delete
calls.  Python's `sorted(..., reverse=True)` is a stable sort and is modelled
by `List.insertionSort` with the corresponding relation (insertion sort is
stable, hence computes the same list).
-/

namespace Cfncli

/-- Python's substring membership test `sub in hay` on strings. -/
def strContainsSub (hay sub : String) : Bool :=
  hay.toList.tails.any (fun t => sub.toList.isPrefixOf t)

/-- The test `any(sub in name for sub in substrings)` used by every gatherer. -/
def anyMatch (substrings : List String) (name : String) : Bool :=
  substrings.any (fun sub => strContainsSub name sub)

/-- One entry of a `list_stacks` page (`StackSummaries`): the fields the code
reads.  `ParentId = none` models the key `"ParentId"` being absent from the
dict; creation time is an abstract numeric timestamp. -/
structure StackSummary where
  StackName : String
  StackStatus : String
  CreationTime : Nat
  ParentId : Option String
deriving DecidableEq, Repr

/-- The filter applied to each stack summary in `gather_cloudformation_stacks`:
status does not contain `DELETE_COMPLETE`, no `ParentId` key, and the name
matches one of the substrings. -/
def stackKept (substrings : List String) (s : StackSummary) : Bool :=
  !(strContainsSub s.StackStatus "DELETE_COMPLETE") && s.ParentId == none
    && anyMatch substrings s.StackName

/-- The relation used to sort stack infos: `key=lambda x: x[1], reverse=True`,
i.e. creation time descending. -/
def laterFirst (a b : String × Nat) : Prop := b.2 ≤ a.2

instance : DecidableRel laterFirst := fun a b => Nat.decLe b.2 a.2

instance : IsTotal (String × Nat) laterFirst :=
  ⟨fun a b => (Nat.le_total b.2 a.2).imp id id⟩

instance : IsTrans (String × Nat) laterFirst :=
  ⟨fun _ _ _ h h2 => Nat.le_trans h2 h⟩

/-- The list `stack_infos` of `(StackName, CreationTime)` pairs accumulated
over all pages in `gather_cloudformation_stacks`. -/
def stackInfos (substrings : List String) (pages : List (List StackSummary)) :
    List (String × Nat) :=
  pages.flatMap fun page =>
    (page.filter (stackKept substrings)).map fun s => (s.StackName, s.CreationTime)

/-- The variable `sorted_stack_infos`: the stack infos sorted by creation time
in descending order (Python `sorted` is stable; so is insertion sort). -/
def sortedStackInfos (substrings : List String) (pages : List (List StackSummary)) :
    List (String × Nat) :=
  List.insertionSort laterFirst (stackInfos substrings pages)

/-- `gather_cloudformation_stacks`: the stack names extracted from the sorted
info list. -/
def gather_cloudformation_stacks (substrings : List String)
    (pages : List (List StackSummary)) : List String :=
  (sortedStackInfos substrings pages).map Prod.fst

/-- One bucket from `s3.buckets.all()`: the code reads `bucket.name`. -/
structure S3BucketInfo where
  name : String
deriving DecidableEq, Repr

/-- `gather_s3_buckets`: the names of the buckets matching a substring. -/
def gather_s3_buckets (substrings : List String) (buckets : List S3BucketInfo) :
    List String :=
  (buckets.filter fun b => anyMatch substrings b.name).map fun b => b.name

/-- `gather_ddb_tables`: pages of `TableNames`, filtered by substring match. -/
def gather_ddb_tables (substrings : List String) (pages : List (List String)) :
    List String :=
  pages.flatMap fun page => page.filter (anyMatch substrings)

/-- One entry of a `describe_repositories` page: the code reads
`repo["repositoryName"]`. -/
structure EcrRepo where
  repositoryName : String
deriving DecidableEq, Repr

/-- `gather_ecr_repositories`: repository names matching a substring. -/
def gather_ecr_repositories (substrings : List String) (pages : List (List EcrRepo)) :
    List String :=
  pages.flatMap fun page =>
    (page.filter fun r => anyMatch substrings r.repositoryName).map
      fun r => r.repositoryName

/-- One entry of a `describe_log_groups` page: the code reads
`log_group["logGroupName"]`. -/
structure LogGroup where
  logGroupName : String
deriving DecidableEq, Repr

/-- `gather_log_groups`: log group names matching a substring. -/
def gather_log_groups (substrings : List String) (pages : List (List LogGroup)) :
    List String :=
  pages.flatMap fun page =>
    (page.filter fun g => anyMatch substrings g.logGroupName).map
      fun g => g.logGroupName

/-- One entry of a `describe_parameters` page: the code reads
`param["Name"]`. -/
structure SsmParam where
  Name : String
deriving DecidableEq, Repr

/-- Python's `s.startswith(pre)`, on the underlying character lists. -/
def strStartsWith (s pre : String) : Bool :=
  pre.toList.isPrefixOf s.toList

/-- The inner `for sub in substrings: if param["Name"].startswith(f"/{sub}/"):
append; break` loop of `gather_ssm_params` appends the name at most once, iff
some substring gives a matching path prefix. -/
def ssmMatch (substrings : List String) (name : String) : Bool :=
  substrings.any fun sub => strStartsWith name ("/" ++ sub ++ "/")

/-- `gather_ssm_params`: parameter names whose name starts with `/{sub}/` for
some configured substring. -/
def gather_ssm_params (substrings : List String) (pages : List (List SsmParam)) :
    List String :=
  pages.flatMap fun page =>
    (page.filter fun p => ssmMatch substrings p.Name).map fun p => p.Name

/-- The `VpcConfig` sub-dict of a Lambda function entry; `VpcId = none` models
the key being absent, and Python truthiness makes the empty string count as
absent too. -/
structure VpcCfg where
  VpcId : Option String
deriving DecidableEq, Repr

/-- One entry of a `list_functions` page: the fields the code reads.
`VpcConfig = none` models the `"VpcConfig"` key being absent. -/
structure LambdaFunctionInfo where
  FunctionName : String
  VpcConfig : Option VpcCfg
deriving DecidableEq, Repr

/-- Python truthiness of `function["VpcConfig"].get("VpcId")` guarded by
`"VpcConfig" in function`. -/
def hasVpc (f : LambdaFunctionInfo) : Bool :=
  match f.VpcConfig with
  | none => false
  | some cfg =>
    match cfg.VpcId with
    | none => false
    | some v => v != ""

/-- `gather_vpc_lambdas`: function names matching a substring whose VPC config
carries a non-empty VPC id. -/
def gather_vpc_lambdas (substrings : List String)
    (pages : List (List LambdaFunctionInfo)) : List String :=
  pages.flatMap fun page =>
    (page.filter fun f => anyMatch substrings f.FunctionName && hasVpc f).map
      fun f => f.FunctionName

/-- Outcome of the provider calls inside the `try` block of
`delete_cloudformation_stack` (the `delete_stack` call and the waiter): either
they succeed, or a `botocore.exceptions.ClientError` is raised carrying an
error code and message. -/
inductive CfnOutcome
  | success
  | clientError (code msg : String)
deriving DecidableEq, Repr

/-- Rendering of `str(e)` for a `ClientError`: an abstract format carrying the
code and the message. -/
def renderClientError (code msg : String) : String :=
  "An error occurred (" ++ code ++ "): " ++ msg

/-- `delete_cloudformation_stack`: a `ValidationError` whose message contains
`does not exist` is swallowed as a no-op; any other `ClientError` is re-raised
via `raise_for_click` as a CLI-level `ClickException` (modelled as
`Except.error`). -/
def delete_cloudformation_stack (stack_name : String) (outcome : CfnOutcome) :
    Except String Unit :=
  match outcome with
  | .success => .ok ()
  | .clientError code msg =>
    if code == "ValidationError" && strContainsSub msg "does not exist" then
      .ok ()
    else
      .error ("Failed to delete CloudFormation stack " ++ stack_name ++ ": "
        ++ renderClientError code msg)

/-- The two provider calls `delete_s3_bucket` makes on the bucket, in the
order the code issues them. -/
inductive S3Action
  | deleteObjectVersions (bucket : String)
  | deleteBucket (bucket : String)
deriving DecidableEq, Repr

/-- `delete_s3_bucket`: first `bucket.object_versions.delete()`, then
`bucket.delete()`, both inside one `try` whose handler re-raises any failure
via `raise_for_click`.  The two `Except` arguments are the outcomes of the two
provider calls; the returned list is the sequence of calls actually issued. -/
def delete_s3_bucket (emptyOutcome deleteOutcome : Except String Unit)
    (bucket_name : String) : List S3Action × Except String Unit :=
  match emptyOutcome with
  | .error e =>
    ([.deleteObjectVersions bucket_name],
     .error ("Failed to delete S3 bucket " ++ bucket_name ++ ": " ++ e))
  | .ok _ =>
    match deleteOutcome with
    | .error e =>
      ([.deleteObjectVersions bucket_name, .deleteBucket bucket_name],
       .error ("Failed to delete S3 bucket " ++ bucket_name ++ ": " ++ e))
    | .ok _ =>
      ([.deleteObjectVersions bucket_name, .deleteBucket bucket_name], .ok ())

/-- `delete_ecr_repository`: any provider failure is re-raised via
`raise_for_click`. -/
def delete_ecr_repository (outcome : Except String Unit) (repo_name : String) :
    Except String Unit :=
  match outcome with
  | .ok _ => .ok ()
  | .error e => .error ("Failed to delete ECR repository " ++ repo_name ++ ": " ++ e)

/-- `delete_ssm_param`: any provider failure is re-raised via
`raise_for_click`. -/
def delete_ssm_param (outcome : Except String Unit) (param_name : String) :
    Except String Unit :=
  match outcome with
  | .ok _ => .ok ()
  | .error e => .error ("Failed to delete SSM Parameter " ++ param_name ++ ": " ++ e)

/-- `delete_log_group`: any provider failure is re-raised via
`raise_for_click`. -/
def delete_log_group (outcome : Except String Unit) (log_group_name : String) :
    Except String Unit :=
  match outcome with
  | .ok _ => .ok ()
  | .error e => .error ("Failed to delete Log Group " ++ log_group_name ++ ": " ++ e)

/-- `update_lambda_vpc_config`: the per-name `try` prints the failure and the
loop continues, so the function never raises; it is modelled as the full
per-name log of (function name, formatted outcome of its update call). -/
def update_lambda_vpc_config (outcome : String → Except String Unit) :
    List String → List (String × Except String Unit)
  | [] => []
  | fn :: rest =>
    (fn,
      match outcome fn with
      | .ok _ => .ok ()
      | .error e =>
        .error ("Failed to update Lambda function " ++ fn ++ ": " ++ e))
      :: update_lambda_vpc_config outcome rest

/-- `remove_ddb_deletion_protection`: the per-name `try` prints the failure
and the loop continues, so the function never raises; modelled as the full
per-name log. -/
def remove_ddb_deletion_protection (outcome : String → Except String Unit) :
    List String → List (String × Except String Unit)
  | [] => []
  | t :: rest =>
    (t,
      match outcome t with
      | .ok _ => .ok ()
      | .error e =>
        .error ("Failed to disable deletion protection for DynamoDB table "
          ++ t ++ ": " ++ e))
      :: remove_ddb_deletion_protection outcome rest

/-- `empty_s3_buckets`: loops over the buckets with no `try`, so the first
provider failure propagates uncaught. -/
def empty_s3_buckets (outcome : String → Except String Unit) :
    List String → Except String Unit
  | [] => .ok ()
  | b :: rest =>
    match outcome b with
    | .error e => .error e
    | .ok _ => empty_s3_buckets outcome rest

/-- `empty_ecr_repositories`: loops over the repositories with no `try`
(`list_images` plus `batch_delete_image`, combined into one outcome), so the
first provider failure propagates uncaught. -/
def empty_ecr_repositories (outcome : String → Except String Unit) :
    List String → Except String Unit
  | [] => .ok ()
  | r :: rest =>
    match outcome r with
    | .error e => .error e
    | .ok _ => empty_ecr_repositories outcome rest

/-- The loop `delete_resources` runs for the single-key dict
`{"cloudformation_stacks": names}` in step 4 of `cleanup_env`: each stack is
deleted in order, and a raised `ClickException` propagates. -/
def delete_resources_cfn (outcome : String → CfnOutcome) :
    List String → Except String Unit
  | [] => .ok ()
  | n :: rest =>
    match delete_cloudformation_stack n (outcome n) with
    | .error e => .error e
    | .ok _ => delete_resources_cfn outcome rest

/-- The keys of the module-level `delete_methods` dict, in insertion order. -/
inductive RType
  | cloudformation_stacks
  | s3_buckets
  | ecr_repositories
  | ssm_params
  | log_groups
deriving DecidableEq, Repr

/-- Iteration order of `delete_methods.items()` (dict insertion order). -/
def deleteMethodsKeys : List RType :=
  [.cloudformation_stacks, .s3_buckets, .ecr_repositories, .ssm_params, .log_groups]

/-- The confirmation prompts `cleanup_env` may issue. -/
inductive Prompt
  | proceed
  | s3
  | ecr
  | lambdas
  | ddb
  | cfn
  | unmanaged (rtype : RType)
deriving DecidableEq, Repr

/-- Observable events of one `cleanup_env` run: prompts issued and
mutating steps invoked. -/
inductive Event
  | prompt (q : Prompt)
  | emptiedS3 (names : List String)
  | emptiedEcr (names : List String)
  | patchedLambdas (names : List String)
  | unprotectedDdb (names : List String)
  | deletedCfnStacks (names : List String)
  | unmanagedStep (rtype : RType) (names : List String)
  | deletedUnmanaged (rtype : RType) (name : String)
deriving DecidableEq, Repr

/-- The outcomes the AWS provider gives to each mutating call, per resource
name.  (The Lambda and DynamoDB update outcomes never influence control flow:
their deleters swallow failures.) -/
structure Provider where
  s3EmptyOutcome : String → Except String Unit
  s3DeleteOutcome : String → Except String Unit
  ecrEmptyOutcome : String → Except String Unit
  ecrDeleteOutcome : String → Except String Unit
  lambdaUpdateOutcome : String → Except String Unit
  ddbUpdateOutcome : String → Except String Unit
  cfnDeleteOutcome : String → CfnOutcome
  ssmDeleteOutcome : String → Except String Unit
  logGroupDeleteOutcome : String → Except String Unit

/-- A provider on which every failure-relevant call succeeds. -/
def Provider.AllOk (p : Provider) : Prop :=
  (∀ n, p.s3EmptyOutcome n = .ok ()) ∧ (∀ n, p.s3DeleteOutcome n = .ok ()) ∧
  (∀ n, p.ecrEmptyOutcome n = .ok ()) ∧ (∀ n, p.ecrDeleteOutcome n = .ok ()) ∧
  (∀ n, p.cfnDeleteOutcome n = .success) ∧
  (∀ n, p.ssmDeleteOutcome n = .ok ()) ∧ (∀ n, p.logGroupDeleteOutcome n = .ok ())

/-- One snapshot of the provider's listing state: the pages each paginated
listing call would yield. -/
structure Inventory where
  stackPages : List (List StackSummary)
  s3Buckets : List S3BucketInfo
  ecrPages : List (List EcrRepo)
  lambdaPages : List (List LambdaFunctionInfo)
  ddbPages : List (List String)
  ssmPages : List (List SsmParam)
  logPages : List (List LogGroup)

/-- The dict built by `gather_resources`, keys in insertion order. -/
structure Resources where
  cloudformation_stacks : List String
  s3_buckets : List String
  ecr_repositories : List String
  vpc_lambdas : List String
  ddb_tables : List String
deriving DecidableEq, Repr

/-- `gather_resources`. -/
def gather_resources (substrings : List String) (inv : Inventory) : Resources :=
  ⟨gather_cloudformation_stacks substrings inv.stackPages,
   gather_s3_buckets substrings inv.s3Buckets,
   gather_ecr_repositories substrings inv.ecrPages,
   gather_vpc_lambdas substrings inv.lambdaPages,
   gather_ddb_tables substrings inv.ddbPages⟩

/-- The dict built by `gather_unmanaged_resources`: only the keys
`s3_buckets`, `ssm_params` and `log_groups`. -/
structure UnmanagedResources where
  s3_buckets : List String
  ssm_params : List String
  log_groups : List String
deriving DecidableEq, Repr

/-- `gather_unmanaged_resources`. -/
def gather_unmanaged_resources (substrings : List String) (inv : Inventory) :
    UnmanagedResources :=
  ⟨gather_s3_buckets substrings inv.s3Buckets,
   gather_ssm_params substrings inv.ssmPages,
   gather_log_groups substrings inv.logPages⟩

/-- `unmanaged_resources.get(resource_type, [])`: the dict holds only the
three unmanaged keys, every other key yields the default `[]`. -/
def unmanagedGet (u : UnmanagedResources) : RType → List String
  | .s3_buckets => u.s3_buckets
  | .ssm_params => u.ssm_params
  | .log_groups => u.log_groups
  | .cloudformation_stacks => []
  | .ecr_repositories => []

/-- Dispatch through the `delete_methods` dict for one resource name. -/
def runDeleteMethod (p : Provider) : RType → String → Except String Unit
  | .cloudformation_stacks, n => delete_cloudformation_stack n (p.cfnDeleteOutcome n)
  | .s3_buckets, n => (delete_s3_bucket (p.s3EmptyOutcome n) (p.s3DeleteOutcome n) n).2
  | .ecr_repositories, n => delete_ecr_repository (p.ecrDeleteOutcome n) n
  | .ssm_params, n => delete_ssm_param (p.ssmDeleteOutcome n) n
  | .log_groups, n => delete_log_group (p.logGroupDeleteOutcome n) n

/-- The inner `for resource_name in resources: delete_function(...)` loop of
the unmanaged pass: a raised `ClickException` propagates and stops the loop. -/
def deleteNamesLoop (p : Provider) (rtype : RType) :
    List String → List Event × Except String Unit
  | [] => ([], .ok ())
  | n :: rest =>
    match runDeleteMethod p rtype n with
    | .error e => ([.deletedUnmanaged rtype n], .error e)
    | .ok _ =>
      let r := deleteNamesLoop p rtype rest
      (.deletedUnmanaged rtype n :: r.1, r.2)

/-- How a run of `cleanup_env` can stop early: `ctx.abort()` or an uncaught
exception carrying a message. -/
inductive RunStop
  | abort
  | err (msg : String)
deriving DecidableEq, Repr

/-- Sequencing of two traced computations: the second runs only when the
first did not stop the run. -/
def seqRun (a b : List Event × Except RunStop Unit) :
    List Event × Except RunStop Unit :=
  match a with
  | (tr, .error s) => (tr, .error s)
  | (tr, .ok _) => (tr ++ b.1, b.2)

/-- Sequencing of a list of traced computations. -/
def seqAll : List (List Event × Except RunStop Unit) → List Event × Except RunStop Unit
  | [] => ([], .ok ())
  | a :: rest => seqRun a (seqAll rest)

/-- Step 2 of `cleanup_env`: the S3 emptying step.  The prompt is issued only
when the list is non-empty and `no_confirm` is false (short-circuit of
`no_confirm or click.confirm(...)`); declining skips the step. -/
def stepS3 (p : Provider) (confirm : Prompt → Bool) (no_confirm : Bool)
    (names : List String) : List Event × Except RunStop Unit :=
  if names.isEmpty then ([], .ok ())
  else
    let promptTrace : List Event := if no_confirm then [] else [.prompt .s3]
    if no_confirm || confirm .s3 then
      (promptTrace ++ [.emptiedS3 names],
       match empty_s3_buckets p.s3EmptyOutcome names with
       | .ok _ => .ok ()
       | .error e => .error (.err e))
    else (promptTrace, .ok ())

/-- Step 3 of `cleanup_env`: the ECR emptying step; declining skips. -/
def stepEcr (p : Provider) (confirm : Prompt → Bool) (no_confirm : Bool)
    (names : List String) : List Event × Except RunStop Unit :=
  if names.isEmpty then ([], .ok ())
  else
    let promptTrace : List Event := if no_confirm then [] else [.prompt .ecr]
    if no_confirm || confirm .ecr then
      (promptTrace ++ [.emptiedEcr names],
       match empty_ecr_repositories p.ecrEmptyOutcome names with
       | .ok _ => .ok ()
       | .error e => .error (.err e))
    else (promptTrace, .ok ())

/-- The Lambda VPC patching step; `update_lambda_vpc_config` never raises, so
the step never stops the run; declining skips. -/
def stepLambda (p : Provider) (confirm : Prompt → Bool) (no_confirm : Bool)
    (names : List String) : List Event × Except RunStop Unit :=
  if names.isEmpty then ([], .ok ())
  else
    let promptTrace : List Event := if no_confirm then [] else [.prompt .lambdas]
    if no_confirm || confirm .lambdas then
      let _log := update_lambda_vpc_config p.lambdaUpdateOutcome names
      (promptTrace ++ [.patchedLambdas names], .ok ())
    else (promptTrace, .ok ())

/-- The DynamoDB deletion-protection step; `remove_ddb_deletion_protection`
never raises; declining skips. -/
def stepDdb (p : Provider) (confirm : Prompt → Bool) (no_confirm : Bool)
    (names : List String) : List Event × Except RunStop Unit :=
  if names.isEmpty then ([], .ok ())
  else
    let promptTrace : List Event := if no_confirm then [] else [.prompt .ddb]
    if no_confirm || confirm .ddb then
      let _log := remove_ddb_deletion_protection p.ddbUpdateOutcome names
      (promptTrace ++ [.unprotectedDdb names], .ok ())
    else (promptTrace, .ok ())

/-- Step 4 of `cleanup_env`: the CloudFormation deletion step.  Declining the
prompt runs `ctx.abort()`, stopping the whole run. -/
def stepCfn (p : Provider) (confirm : Prompt → Bool) (no_confirm : Bool)
    (names : List String) : List Event × Except RunStop Unit :=
  if names.isEmpty then ([], .ok ())
  else
    let promptTrace : List Event := if no_confirm then [] else [.prompt .cfn]
    if no_confirm || confirm .cfn then
      (promptTrace ++ [.deletedCfnStacks names],
       match delete_resources_cfn p.cfnDeleteOutcome names with
       | .ok _ => .ok ()
       | .error e => .error (.err e))
    else (promptTrace, .error .abort)

/-- One iteration of the unmanaged pass (step 6 of `cleanup_env`) for one
`delete_methods` key; a missing key yields `[]`, hence no prompt and no
delete. -/
def stepUnmanaged (p : Provider) (confirm : Prompt → Bool) (no_confirm : Bool)
    (u : UnmanagedResources) (rtype : RType) : List Event × Except RunStop Unit :=
  let names := unmanagedGet u rtype
  if names.isEmpty then ([], .ok ())
  else
    let promptTrace : List Event :=
      if no_confirm then [] else [.prompt (.unmanaged rtype)]
    if no_confirm || confirm (.unmanaged rtype) then
      let r := deleteNamesLoop p rtype names
      (promptTrace ++ .unmanagedStep rtype names :: r.1,
       match r.2 with
       | .ok _ => .ok ()
       | .error e => .error (.err e))
    else (promptTrace, .ok ())

/-- How a `cleanup_env` run ends. -/
inductive RunResult
  | notStarted
  | completed
  | aborted
  | errored (msg : String)
deriving DecidableEq, Repr

/-- Steps 5 and 6 of `cleanup_env`: the generic prompt/delete loop over
`delete_methods.items()` against the unmanaged inventory. -/
def unmanagedPass (p : Provider) (confirm : Prompt → Bool) (no_confirm : Bool)
    (u : UnmanagedResources) : List Event × Except RunStop Unit :=
  seqAll (deleteMethodsKeys.map (stepUnmanaged p confirm no_confirm u))

/-- The sequence of steps the body of `cleanup_env` runs, in source order. -/
def cleanupSteps (p : Provider) (confirm : Prompt → Bool) (no_confirm : Bool)
    (substrings : List String) (inv inv2 : Inventory) :
    List (List Event × Except RunStop Unit) :=
  [stepS3 p confirm no_confirm (gather_resources substrings inv).s3_buckets,
   stepEcr p confirm no_confirm (gather_resources substrings inv).ecr_repositories,
   stepLambda p confirm no_confirm (gather_resources substrings inv).vpc_lambdas,
   stepDdb p confirm no_confirm (gather_resources substrings inv).ddb_tables,
   stepCfn p confirm no_confirm (gather_resources substrings inv).cloudformation_stacks,
   unmanagedPass p confirm no_confirm (gather_unmanaged_resources substrings inv2)]

/-- `cleanup_env`: the initial confirmation (always prompted), the managed
steps in source order, then the unmanaged pass over `delete_methods.items()`.
`inv` is the provider listing state at the first gather, `inv2` at the
unmanaged gather. -/
def cleanup_env (p : Provider) (confirm : Prompt → Bool) (no_confirm : Bool)
    (substrings : List String) (inv inv2 : Inventory) : List Event × RunResult :=
  if confirm .proceed then
    let body := seqAll (cleanupSteps p confirm no_confirm substrings inv inv2)
    (Event.prompt .proceed :: body.1,
     match body.2 with
     | .ok _ => .completed
     | .error .abort => .aborted
     | .error (.err e) => .errored e)
  else ([.prompt .proceed], .notStarted)

/-! ### Helper lemmas about the gatherers -/

theorem anyMatch_iff (subs : List String) (n : String) :
    anyMatch subs n = true ↔ ∃ sub ∈ subs, strContainsSub n sub = true := by
  simp [anyMatch]

theorem ssmMatch_iff (subs : List String) (n : String) :
    ssmMatch subs n = true ↔
      ∃ sub ∈ subs, strStartsWith n ("/" ++ sub ++ "/") = true := by
  simp [ssmMatch]

theorem mem_gather_s3_buckets (subs : List String) (buckets : List S3BucketInfo)
    (n : String) :
    n ∈ gather_s3_buckets subs buckets ↔
      (∃ b ∈ buckets, b.name = n) ∧ anyMatch subs n = true := by
  simp only [gather_s3_buckets, List.mem_map, List.mem_filter]
  constructor
  · rintro ⟨b, ⟨hb, hm⟩, rfl⟩
    exact ⟨⟨b, hb, rfl⟩, hm⟩
  · rintro ⟨⟨b, hb, rfl⟩, hm⟩
    exact ⟨b, ⟨hb, hm⟩, rfl⟩

theorem mem_gather_ddb_tables (subs : List String) (pages : List (List String))
    (n : String) :
    n ∈ gather_ddb_tables subs pages ↔
      n ∈ pages.flatten ∧ anyMatch subs n = true := by
  simp only [gather_ddb_tables, List.mem_flatMap, List.mem_filter, List.mem_flatten]
  constructor
  · rintro ⟨pg, hpg, hn, hm⟩
    exact ⟨⟨pg, hpg, hn⟩, hm⟩
  · rintro ⟨⟨pg, hpg, hn⟩, hm⟩
    exact ⟨pg, hpg, hn, hm⟩

theorem mem_gather_ecr_repositories (subs : List String)
    (pages : List (List EcrRepo)) (n : String) :
    n ∈ gather_ecr_repositories subs pages ↔
      (∃ r ∈ pages.flatten, r.repositoryName = n) ∧ anyMatch subs n = true := by
  simp only [gather_ecr_repositories, List.mem_flatMap, List.mem_map,
    List.mem_filter, List.mem_flatten]
  constructor
  · rintro ⟨pg, hpg, r, ⟨hr, hm⟩, rfl⟩
    exact ⟨⟨r, ⟨pg, hpg, hr⟩, rfl⟩, hm⟩
  · rintro ⟨⟨r, ⟨pg, hpg, hr⟩, rfl⟩, hm⟩
    exact ⟨pg, hpg, r, ⟨hr, hm⟩, rfl⟩

theorem mem_gather_log_groups (subs : List String)
    (pages : List (List LogGroup)) (n : String) :
    n ∈ gather_log_groups subs pages ↔
      (∃ g ∈ pages.flatten, g.logGroupName = n) ∧ anyMatch subs n = true := by
  simp only [gather_log_groups, List.mem_flatMap, List.mem_map,
    List.mem_filter, List.mem_flatten]
  constructor
  · rintro ⟨pg, hpg, g, ⟨hg, hm⟩, rfl⟩
    exact ⟨⟨g, ⟨pg, hpg, hg⟩, rfl⟩, hm⟩
  · rintro ⟨⟨g, ⟨pg, hpg, hg⟩, rfl⟩, hm⟩
    exact ⟨pg, hpg, g, ⟨hg, hm⟩, rfl⟩

theorem mem_gather_ssm_params (subs : List String)
    (pages : List (List SsmParam)) (n : String) :
    n ∈ gather_ssm_params subs pages ↔
      (∃ q ∈ pages.flatten, q.Name = n) ∧ ssmMatch subs n = true := by
  simp only [gather_ssm_params, List.mem_flatMap, List.mem_map,
    List.mem_filter, List.mem_flatten]
  constructor
  · rintro ⟨pg, hpg, q, ⟨hq, hm⟩, rfl⟩
    exact ⟨⟨q, ⟨pg, hpg, hq⟩, rfl⟩, hm⟩
  · rintro ⟨⟨q, ⟨pg, hpg, hq⟩, rfl⟩, hm⟩
    exact ⟨pg, hpg, q, ⟨hq, hm⟩, rfl⟩

theorem hasVpc_iff (f : LambdaFunctionInfo) :
    hasVpc f = true ↔ ∃ cfg, f.VpcConfig = some cfg ∧ ∃ v, cfg.VpcId = some v ∧ v ≠ "" := by
  rcases f with ⟨fn, vc⟩
  rcases vc with _ | ⟨vid⟩
  · simp [hasVpc]
  · rcases vid with _ | v
    · simp [hasVpc]
    · simp [hasVpc]

theorem mem_gather_vpc_lambdas (subs : List String)
    (pages : List (List LambdaFunctionInfo)) (n : String) :
    n ∈ gather_vpc_lambdas subs pages ↔
      ∃ f ∈ pages.flatten, f.FunctionName = n ∧ anyMatch subs n = true
        ∧ hasVpc f = true := by
  simp only [gather_vpc_lambdas, List.mem_flatMap, List.mem_map,
    List.mem_filter, List.mem_flatten, Bool.and_eq_true]
  constructor
  · rintro ⟨pg, hpg, f, ⟨hf, hm, hv⟩, rfl⟩
    exact ⟨f, ⟨pg, hpg, hf⟩, rfl, hm, hv⟩
  · rintro ⟨f, ⟨pg, hpg, hf⟩, rfl, hm, hv⟩
    exact ⟨pg, hpg, f, ⟨hf, hm, hv⟩, rfl⟩

/-- The stack status values the CloudFormation `list_stacks` API can return
(the `StackStatus` enum of the provider). -/
def cfnStackStatuses : List String :=
  ["CREATE_IN_PROGRESS", "CREATE_FAILED", "CREATE_COMPLETE",
   "ROLLBACK_IN_PROGRESS", "ROLLBACK_FAILED", "ROLLBACK_COMPLETE",
   "DELETE_IN_PROGRESS", "DELETE_FAILED", "DELETE_COMPLETE",
   "UPDATE_IN_PROGRESS", "UPDATE_COMPLETE_CLEANUP_IN_PROGRESS", "UPDATE_COMPLETE",
   "UPDATE_FAILED", "UPDATE_ROLLBACK_IN_PROGRESS", "UPDATE_ROLLBACK_FAILED",
   "UPDATE_ROLLBACK_COMPLETE_CLEANUP_IN_PROGRESS", "UPDATE_ROLLBACK_COMPLETE",
   "REVIEW_IN_PROGRESS", "IMPORT_IN_PROGRESS", "IMPORT_COMPLETE",
   "IMPORT_ROLLBACK_IN_PROGRESS", "IMPORT_ROLLBACK_FAILED",
   "IMPORT_ROLLBACK_COMPLETE"]

/-- On provider-returned statuses, the code's substring test
`"DELETE_COMPLETE" not in stack["StackStatus"]` coincides with the equality
test. -/
theorem status_contains_iff_eq (st : String) (h : st ∈ cfnStackStatuses) :
    strContainsSub st "DELETE_COMPLETE" = true ↔ st = "DELETE_COMPLETE" := by
  fin_cases h <;> decide

theorem stackKept_iff (subs : List String) (s : StackSummary) :
    stackKept subs s = true ↔
      strContainsSub s.StackStatus "DELETE_COMPLETE" = false
        ∧ s.ParentId = none ∧ anyMatch subs s.StackName = true := by
  simp [stackKept, Bool.and_eq_true, Bool.not_eq_true', and_assoc]

theorem mem_stackInfos (subs : List String) (pages : List (List StackSummary))
    (pr : String × Nat) :
    pr ∈ stackInfos subs pages ↔
      ∃ s ∈ pages.flatten, stackKept subs s = true
        ∧ (s.StackName, s.CreationTime) = pr := by
  simp only [stackInfos, List.mem_flatMap, List.mem_map, List.mem_filter,
    List.mem_flatten]
  constructor
  · rintro ⟨pg, hpg, s, ⟨hs, hk⟩, heq⟩
    exact ⟨s, ⟨pg, hpg, hs⟩, hk, heq⟩
  · rintro ⟨s, ⟨pg, hpg, hs⟩, hk, heq⟩
    exact ⟨pg, hpg, s, ⟨hs, hk⟩, heq⟩

theorem mem_sortedStackInfos (subs : List String)
    (pages : List (List StackSummary)) (pr : String × Nat) :
    pr ∈ sortedStackInfos subs pages ↔ pr ∈ stackInfos subs pages :=
  (List.perm_insertionSort laterFirst _).mem_iff

/-! ### Claims about the gatherers -/

/-- C1: for provider-returned stack summary pages,
`gather_cloudformation_stacks` returns exactly the names of stacks that are
not in `DELETE_COMPLETE` status, have no parent, and match a configured
substring; the result reads the names off an info list sorted by creation
time descending, so for any two gathered stacks the one created later appears
first. -/
theorem C1_cfn_gather (subs : List String) (pages : List (List StackSummary))
    (hval : ∀ s ∈ pages.flatten, s.StackStatus ∈ cfnStackStatuses) :
    (∀ n, n ∈ gather_cloudformation_stacks subs pages ↔
      ∃ s ∈ pages.flatten, s.StackName = n ∧ s.StackStatus ≠ "DELETE_COMPLETE"
        ∧ s.ParentId = none ∧ ∃ sub ∈ subs, strContainsSub n sub = true) ∧
    gather_cloudformation_stacks subs pages =
      (sortedStackInfos subs pages).map Prod.fst ∧
    (sortedStackInfos subs pages).Pairwise (fun a b => b.2 ≤ a.2) := by
  have hst : ∀ s ∈ pages.flatten,
      (strContainsSub s.StackStatus "DELETE_COMPLETE" = false ↔
        s.StackStatus ≠ "DELETE_COMPLETE") := by
    intro s hs
    rw [Bool.eq_false_iff]
    exact not_congr (status_contains_iff_eq s.StackStatus (hval s hs))
  refine ⟨?_, rfl, List.sorted_insertionSort laterFirst _⟩
  intro n
  unfold gather_cloudformation_stacks
  rw [List.mem_map]
  constructor
  · rintro ⟨pr, hpr, rfl⟩
    obtain ⟨s, hs, hk, heq⟩ :=
      (mem_stackInfos subs pages pr).1 ((mem_sortedStackInfos subs pages pr).1 hpr)
    obtain ⟨hdel, hpar, hmatch⟩ := (stackKept_iff subs s).1 hk
    refine ⟨s, hs, ?_, (hst s hs).1 hdel, hpar, ?_⟩
    · rw [← heq]
    · have : s.StackName = pr.1 := by rw [← heq]
      rw [← this]
      exact (anyMatch_iff subs s.StackName).1 hmatch
  · rintro ⟨s, hs, rfl, hdel, hpar, hmatch⟩
    refine ⟨(s.StackName, s.CreationTime), ?_, rfl⟩
    rw [mem_sortedStackInfos, mem_stackInfos]
    refine ⟨s, hs, ?_, rfl⟩
    rw [stackKept_iff]
    exact ⟨(hst s hs).2 hdel, hpar, (anyMatch_iff subs s.StackName).2 hmatch⟩

/-- C1 witness: a concrete instance with two valid stacks, one nested and one
deleted, checked through the theorem. -/
theorem C1_cfn_gather_witness :
    ("env-a-app" ∈ gather_cloudformation_stacks ["env-a"]
      [[⟨"env-a-app", "CREATE_COMPLETE", 2, none⟩,
        ⟨"env-a-nested", "CREATE_COMPLETE", 3, some "parent-arn"⟩,
        ⟨"env-a-gone", "DELETE_COMPLETE", 4, none⟩]]) ∧
    ("env-a-nested" ∉ gather_cloudformation_stacks ["env-a"]
      [[⟨"env-a-app", "CREATE_COMPLETE", 2, none⟩,
        ⟨"env-a-nested", "CREATE_COMPLETE", 3, some "parent-arn"⟩,
        ⟨"env-a-gone", "DELETE_COMPLETE", 4, none⟩]]) := by
  have h := C1_cfn_gather ["env-a"]
    [[⟨"env-a-app", "CREATE_COMPLETE", 2, none⟩,
      ⟨"env-a-nested", "CREATE_COMPLETE", 3, some "parent-arn"⟩,
      ⟨"env-a-gone", "DELETE_COMPLETE", 4, none⟩]]
    (by intro s hs; fin_cases hs <;> decide)
  constructor
  · exact (h.1 "env-a-app").2
      ⟨⟨"env-a-app", "CREATE_COMPLETE", 2, none⟩, by decide, rfl, by decide,
        rfl, "env-a", by decide, by decide⟩
  · intro hmem
    obtain ⟨s, hs, hname, hdel, hpar, -⟩ := (h.1 "env-a-nested").1 hmem
    fin_cases hs <;> simp_all

/-- C8: the end-to-end example from the spec: two active parentless stacks,
the later-created one first. -/
theorem C8_cfn_gather_example :
    gather_cloudformation_stacks ["env-a"]
      [[⟨"env-a-app", "CREATE_COMPLETE", 2, none⟩,
        ⟨"env-a-db", "CREATE_COMPLETE", 1, none⟩]] =
      ["env-a-app", "env-a-db"] := by decide

/-- C2: for every inventory and non-empty substring list, each gatherer
includes a resource name iff the inventory lists it and it contains some
configured substring, except SSM parameters, which are included iff the name
starts with `/{substring}/` for some configured substring. -/
theorem C2_substring_filters (subs : List String) (_hne : subs ≠ []) :
    (∀ (buckets : List S3BucketInfo) (n : String),
        n ∈ gather_s3_buckets subs buckets ↔
          (∃ b ∈ buckets, b.name = n) ∧
            ∃ sub ∈ subs, strContainsSub n sub = true) ∧
    (∀ (pages : List (List String)) (n : String),
        n ∈ gather_ddb_tables subs pages ↔
          n ∈ pages.flatten ∧ ∃ sub ∈ subs, strContainsSub n sub = true) ∧
    (∀ (pages : List (List EcrRepo)) (n : String),
        n ∈ gather_ecr_repositories subs pages ↔
          (∃ r ∈ pages.flatten, r.repositoryName = n) ∧
            ∃ sub ∈ subs, strContainsSub n sub = true) ∧
    (∀ (pages : List (List LogGroup)) (n : String),
        n ∈ gather_log_groups subs pages ↔
          (∃ g ∈ pages.flatten, g.logGroupName = n) ∧
            ∃ sub ∈ subs, strContainsSub n sub = true) ∧
    (∀ (pages : List (List SsmParam)) (n : String),
        n ∈ gather_ssm_params subs pages ↔
          (∃ q ∈ pages.flatten, q.Name = n) ∧
            ∃ sub ∈ subs, strStartsWith n ("/" ++ sub ++ "/") = true) := by
  refine ⟨fun buckets n => ?_, fun pages n => ?_, fun pages n => ?_,
    fun pages n => ?_, fun pages n => ?_⟩
  · rw [mem_gather_s3_buckets, anyMatch_iff]
  · rw [mem_gather_ddb_tables, anyMatch_iff]
  · rw [mem_gather_ecr_repositories, anyMatch_iff]
  · rw [mem_gather_log_groups, anyMatch_iff]
  · rw [mem_gather_ssm_params, ssmMatch_iff]

/-- C2 witness: concrete membership checks through the theorem, at the
substring list `["env-a"]`: an S3 bucket by containment and an SSM parameter
by path prefix. -/
theorem C2_substring_filters_witness :
    ("data-env-a-bucket" ∈ gather_s3_buckets ["env-a"] [⟨"data-env-a-bucket"⟩]) ∧
    ("/env-a/db/password" ∈ gather_ssm_params ["env-a"]
      [[⟨"/env-a/db/password"⟩, ⟨"/other/env-a"⟩]]) ∧
    ("/other/env-a" ∉ gather_ssm_params ["env-a"]
      [[⟨"/env-a/db/password"⟩, ⟨"/other/env-a"⟩]]) := by
  have h := C2_substring_filters ["env-a"] (by decide)
  refine ⟨?_, ?_, ?_⟩
  · exact (h.1 [⟨"data-env-a-bucket"⟩] "data-env-a-bucket").2
      ⟨⟨⟨"data-env-a-bucket"⟩, by decide, rfl⟩, "env-a", by decide, by decide⟩
  · exact (h.2.2.2.2 [[⟨"/env-a/db/password"⟩, ⟨"/other/env-a"⟩]]
      "/env-a/db/password").2
      ⟨⟨⟨"/env-a/db/password"⟩, by decide, rfl⟩, "env-a", by decide, by decide⟩
  · intro hmem
    obtain ⟨-, sub, hsub, hpre⟩ :=
      (h.2.2.2.2 [[⟨"/env-a/db/password"⟩, ⟨"/other/env-a"⟩]] "/other/env-a").1 hmem
    fin_cases hsub
    exact absurd hpre (by decide)

/-- C6: a Lambda function is gathered iff its name contains a configured
substring and its VPC configuration is present with a non-empty VPC id. -/
theorem C6_vpc_lambda_filter (subs : List String)
    (pages : List (List LambdaFunctionInfo)) (n : String) :
    n ∈ gather_vpc_lambdas subs pages ↔
      ∃ f ∈ pages.flatten, f.FunctionName = n
        ∧ (∃ sub ∈ subs, strContainsSub n sub = true)
        ∧ ∃ cfg, f.VpcConfig = some cfg ∧ ∃ v, cfg.VpcId = some v ∧ v ≠ "" := by
  rw [mem_gather_vpc_lambdas]
  constructor
  · rintro ⟨f, hf, rfl, hm, hv⟩
    exact ⟨f, hf, rfl, (anyMatch_iff subs f.FunctionName).1 hm, (hasVpc_iff f).1 hv⟩
  · rintro ⟨f, hf, rfl, hm, hv⟩
    exact ⟨f, hf, rfl, (anyMatch_iff subs f.FunctionName).2 hm, (hasVpc_iff f).2 hv⟩

/-! ### Empty substring list -/

theorem gather_s3_buckets_nil (buckets : List S3BucketInfo) :
    gather_s3_buckets [] buckets = [] := by
  simp [gather_s3_buckets, anyMatch]

theorem gather_ddb_tables_nil (pages : List (List String)) :
    gather_ddb_tables [] pages = [] := by
  simp [gather_ddb_tables, anyMatch]

theorem gather_ecr_repositories_nil (pages : List (List EcrRepo)) :
    gather_ecr_repositories [] pages = [] := by
  simp [gather_ecr_repositories, anyMatch]

theorem gather_log_groups_nil (pages : List (List LogGroup)) :
    gather_log_groups [] pages = [] := by
  simp [gather_log_groups, anyMatch]

theorem gather_ssm_params_nil (pages : List (List SsmParam)) :
    gather_ssm_params [] pages = [] := by
  simp [gather_ssm_params, ssmMatch]

theorem gather_vpc_lambdas_nil (pages : List (List LambdaFunctionInfo)) :
    gather_vpc_lambdas [] pages = [] := by
  simp [gather_vpc_lambdas, anyMatch]

theorem stackKept_nil (s : StackSummary) : stackKept [] s = false := by
  simp [stackKept, anyMatch]

theorem gather_cloudformation_stacks_nil (pages : List (List StackSummary)) :
    gather_cloudformation_stacks [] pages = [] := by
  have h : ∀ page : List StackSummary, page.filter (stackKept []) = [] := by
    intro page
    induction page with
    | nil => rfl
    | cons s rest ih => simp [List.filter, stackKept_nil, ih]
  have h2 : pages.flatMap (fun _ => ([] : List (String × Nat))) = [] := by
    induction pages with
    | nil => rfl
    | cons pg rest ih => simp_all
  simp [gather_cloudformation_stacks, sortedStackInfos, stackInfos, h, h2]

/-- C10: with an empty substring list every gatherer returns the empty list,
so a run gathers nothing and its trace shows no prompt beyond the initial one
and no mutating step at all. -/
theorem C10_empty_substrings :
    (∀ inv, gather_resources [] inv = ⟨[], [], [], [], []⟩) ∧
    (∀ inv, gather_unmanaged_resources [] inv = ⟨[], [], []⟩) ∧
    (∀ p confirm no_confirm inv inv2,
      (cleanup_env p confirm no_confirm [] inv inv2).1 = [Event.prompt .proceed]) := by
  refine ⟨fun inv => ?_, fun inv => ?_, fun p confirm no_confirm inv inv2 => ?_⟩
  · simp [gather_resources, gather_s3_buckets_nil, gather_ddb_tables_nil,
      gather_ecr_repositories_nil, gather_vpc_lambdas_nil,
      gather_cloudformation_stacks_nil]
  · simp [gather_unmanaged_resources, gather_s3_buckets_nil,
      gather_ssm_params_nil, gather_log_groups_nil]
  · cases h : confirm .proceed <;>
      simp [cleanup_env, h, gather_resources, gather_unmanaged_resources,
        gather_s3_buckets_nil, gather_ddb_tables_nil, gather_ecr_repositories_nil,
        gather_vpc_lambdas_nil, gather_cloudformation_stacks_nil,
        gather_ssm_params_nil, gather_log_groups_nil, seqAll, seqRun,
        cleanupSteps, unmanagedPass, stepS3, stepEcr, stepLambda, stepDdb,
        stepCfn, stepUnmanaged, unmanagedGet, deleteMethodsKeys]

/-! ### Claims about the deleters -/

/-- C3: `delete_cloudformation_stack` swallows a `ValidationError` whose
message contains `does not exist` as a no-op, and raises a CLI-level error for
every other `ClientError`. -/
theorem C3_cfn_delete_absent_noop :
    (∀ n msg, strContainsSub msg "does not exist" = true →
      delete_cloudformation_stack n (.clientError "ValidationError" msg) = .ok ()) ∧
    (∀ n code msg,
      ¬(code = "ValidationError" ∧ strContainsSub msg "does not exist" = true) →
      delete_cloudformation_stack n (.clientError code msg) =
        .error ("Failed to delete CloudFormation stack " ++ n ++ ": "
          ++ renderClientError code msg)) := by
  constructor
  · intro n msg h
    simp [delete_cloudformation_stack, h]
  · intro n code msg h
    have hb : ¬(code == "ValidationError" && strContainsSub msg "does not exist") = true := by
      simp only [Bool.and_eq_true, beq_iff_eq]
      exact h
    simp [delete_cloudformation_stack, hb]

/-- C3 witness: the absent-stack message is swallowed; an access error is
raised formatted. -/
theorem C3_cfn_delete_absent_noop_witness :
    delete_cloudformation_stack "env-a-app"
      (.clientError "ValidationError" "Stack with id env-a-app does not exist")
      = .ok () ∧
    delete_cloudformation_stack "env-a-app"
      (.clientError "AccessDenied" "not authorized")
      = .error ("Failed to delete CloudFormation stack env-a-app: "
          ++ renderClientError "AccessDenied" "not authorized") :=
  ⟨C3_cfn_delete_absent_noop.1 "env-a-app"
      "Stack with id env-a-app does not exist" (by decide),
   C3_cfn_delete_absent_noop.2 "env-a-app" "AccessDenied" "not authorized"
      (by decide)⟩

/-- C5: every provider failure inside the S3, ECR, SSM and log-group deleters
is re-raised as a formatted CLI-level error, while the Lambda and DynamoDB
updaters record the failure in their per-name log and process every remaining
name, never raising. -/
theorem C5_deleter_asymmetry :
    (∀ n e d, (delete_s3_bucket (.error e) d n).2 =
      .error ("Failed to delete S3 bucket " ++ n ++ ": " ++ e)) ∧
    (∀ n e, (delete_s3_bucket (.ok ()) (.error e) n).2 =
      .error ("Failed to delete S3 bucket " ++ n ++ ": " ++ e)) ∧
    (∀ n e, delete_ecr_repository (.error e) n =
      .error ("Failed to delete ECR repository " ++ n ++ ": " ++ e)) ∧
    (∀ n e, delete_ssm_param (.error e) n =
      .error ("Failed to delete SSM Parameter " ++ n ++ ": " ++ e)) ∧
    (∀ n e, delete_log_group (.error e) n =
      .error ("Failed to delete Log Group " ++ n ++ ": " ++ e)) ∧
    (∀ o fns, (update_lambda_vpc_config o fns).map Prod.fst = fns) ∧
    (∀ o fns, (remove_ddb_deletion_protection o fns).map Prod.fst = fns) := by
  refine ⟨fun n e d => rfl, fun n e => rfl, fun n e => rfl, fun n e => rfl,
    fun n e => rfl, fun o fns => ?_, fun o fns => ?_⟩
  · induction fns with
    | nil => rfl
    | cons fn rest ih => simp [update_lambda_vpc_config, ih]
  · induction fns with
    | nil => rfl
    | cons t rest ih => simp [remove_ddb_deletion_protection, ih]

/-- C7: `delete_s3_bucket` always issues the object-version emptying call
first; the bucket delete call, whenever issued, comes second. -/
theorem C7_s3_empty_before_delete (emptyOutcome deleteOutcome : Except String Unit)
    (b : String) :
    (delete_s3_bucket emptyOutcome deleteOutcome b).1.head? =
      some (.deleteObjectVersions b) ∧
    (S3Action.deleteBucket b ∈ (delete_s3_bucket emptyOutcome deleteOutcome b).1 →
      (delete_s3_bucket emptyOutcome deleteOutcome b).1 =
        [.deleteObjectVersions b, .deleteBucket b]) := by
  rcases emptyOutcome with e | u
  · refine ⟨rfl, fun h => ?_⟩
    simp [delete_s3_bucket] at h
  · rcases deleteOutcome with e | u <;> exact ⟨rfl, fun _ => rfl⟩

/-- C7 witness: on the all-success outcome the emptying call leads and the
bucket delete follows. -/
theorem C7_s3_empty_before_delete_witness :
    (delete_s3_bucket (.ok ()) (.ok ()) "env-a-bucket").1.head? =
      some (.deleteObjectVersions "env-a-bucket") ∧
    (delete_s3_bucket (.ok ()) (.ok ()) "env-a-bucket").1 =
      [.deleteObjectVersions "env-a-bucket", .deleteBucket "env-a-bucket"] :=
  ⟨(C7_s3_empty_before_delete (.ok ()) (.ok ()) "env-a-bucket").1,
   (C7_s3_empty_before_delete (.ok ()) (.ok ()) "env-a-bucket").2 (by decide)⟩

/-! ### Run lemmas for the orchestrator -/

theorem seqRun_snd_of_ok (a b : List Event × Except RunStop Unit)
    (h : a.2 = .ok ()) : (seqRun a b).2 = b.2 := by
  obtain ⟨tr, r⟩ := a
  cases r with
  | error s => simp at h
  | ok u => rfl

theorem seqRun_snd_of_error (a b : List Event × Except RunStop Unit)
    (s : RunStop) (h : a.2 = .error s) : (seqRun a b).2 = .error s := by
  obtain ⟨tr, r⟩ := a
  cases r with
  | error s2 => simp at h; rw [seqRun, h]
  | ok u => simp at h

theorem seqRun_of_ok (a b : List Event × Except RunStop Unit)
    (h : a.2 = .ok ()) : seqRun a b = (a.1 ++ b.1, b.2) := by
  obtain ⟨tr, r⟩ := a
  cases r with
  | error s => simp at h
  | ok u => rfl

theorem mem_seqRun (a b : List Event × Except RunStop Unit) (e : Event)
    (h : e ∈ (seqRun a b).1) : e ∈ a.1 ∨ e ∈ b.1 := by
  obtain ⟨tr, r⟩ := a
  cases r with
  | error s => exact Or.inl h
  | ok u => exact List.mem_append.1 h

theorem mem_seqAll (e : Event) :
    ∀ l : List (List Event × Except RunStop Unit),
      e ∈ (seqAll l).1 → ∃ a ∈ l, e ∈ a.1
  | [], h => by simp [seqAll] at h
  | a :: rest, h => by
    rcases mem_seqRun a (seqAll rest) e h with h1 | h2
    · exact ⟨a, List.mem_cons_self a rest, h1⟩
    · obtain ⟨b, hb, hbe⟩ := mem_seqAll e rest h2
      exact ⟨b, List.mem_cons_of_mem a hb, hbe⟩

theorem seqAll_snd_ok :
    ∀ l : List (List Event × Except RunStop Unit),
      (∀ a ∈ l, a.2 = .ok ()) → (seqAll l).2 = .ok ()
  | [], _ => rfl
  | a :: rest, h => by
    rw [seqAll, seqRun_snd_of_ok a _ (h a (List.mem_cons_self a rest))]
    exact seqAll_snd_ok rest fun b hb => h b (List.mem_cons_of_mem a hb)

theorem seqAll_of_all_ok :
    ∀ l : List (List Event × Except RunStop Unit),
      (∀ a ∈ l, a.2 = .ok ()) → seqAll l = ((l.map Prod.fst).flatten, .ok ())
  | [], _ => rfl
  | a :: rest, h => by
    rw [seqAll, seqRun_of_ok a _ (h a (List.mem_cons_self a rest)),
      seqAll_of_all_ok rest fun b hb => h b (List.mem_cons_of_mem a hb)]
    simp

theorem empty_s3_buckets_ok (o : String → Except String Unit)
    (h : ∀ n, o n = .ok ()) : ∀ l, empty_s3_buckets o l = .ok ()
  | [] => rfl
  | b :: rest => by
    rw [empty_s3_buckets, h b]
    exact empty_s3_buckets_ok o h rest

theorem empty_ecr_repositories_ok (o : String → Except String Unit)
    (h : ∀ n, o n = .ok ()) : ∀ l, empty_ecr_repositories o l = .ok ()
  | [] => rfl
  | r :: rest => by
    rw [empty_ecr_repositories, h r]
    exact empty_ecr_repositories_ok o h rest

theorem delete_resources_cfn_ok (o : String → CfnOutcome)
    (h : ∀ n, o n = .success) : ∀ l, delete_resources_cfn o l = .ok ()
  | [] => rfl
  | n :: rest => by
    rw [delete_resources_cfn, h n]
    exact delete_resources_cfn_ok o h rest

theorem runDeleteMethod_ok (p : Provider) (hp : p.AllOk) (rt : RType)
    (n : String) : runDeleteMethod p rt n = .ok () := by
  obtain ⟨h1, h2, _h3, h4, h5, h6, h7⟩ := hp
  cases rt <;>
    simp [runDeleteMethod, delete_cloudformation_stack, delete_s3_bucket,
      delete_ecr_repository, delete_ssm_param, delete_log_group,
      h1, h2, h4, h5, h6, h7]

theorem deleteNamesLoop_allok (p : Provider) (rt : RType)
    (h : ∀ n, runDeleteMethod p rt n = .ok ()) :
    ∀ l, deleteNamesLoop p rt l = (l.map (Event.deletedUnmanaged rt), .ok ())
  | [] => rfl
  | n :: rest => by
    rw [deleteNamesLoop, h n]
    simp [deleteNamesLoop_allok p rt h rest]

theorem deleteNamesLoop_events (p : Provider) (rt : RType) :
    ∀ l, ∀ e ∈ (deleteNamesLoop p rt l).1, ∃ n, e = .deletedUnmanaged rt n
  | [], e, he => by simp [deleteNamesLoop] at he
  | n :: rest, e, he => by
    rw [deleteNamesLoop] at he
    cases hr : runDeleteMethod p rt n with
    | error s =>
      rw [hr] at he
      simp at he
      exact ⟨n, he⟩
    | ok u =>
      rw [hr] at he
      simp at he
      rcases he with rfl | he2
      · exact ⟨n, rfl⟩
      · exact deleteNamesLoop_events p rt rest e he2

/-! ### Per-step lemmas -/

theorem stepS3_snd_ok (p : Provider) (c : Prompt → Bool) (nc : Bool)
    (names : List String) (h : ∀ n, p.s3EmptyOutcome n = .ok ()) :
    (stepS3 p c nc names).2 = .ok () := by
  cases hni : names.isEmpty <;> cases hcc : (nc || c .s3) <;>
    simp [stepS3, hni, hcc, empty_s3_buckets_ok _ h]

theorem stepS3_events (p : Provider) (c : Prompt → Bool) (nc : Bool)
    (names : List String) :
    ∀ e ∈ (stepS3 p c nc names).1, e = .prompt .s3 ∨ e = .emptiedS3 names := by
  intro e he
  cases hni : names.isEmpty <;> cases hnc : nc <;> cases hcs : c .s3 <;>
    simp [stepS3, hni, hnc, hcs] at he <;> tauto

theorem stepS3_declined (p : Provider) (c : Prompt → Bool) (names : List String)
    (hc : c .s3 = false) :
    stepS3 p c false names =
      ((if names.isEmpty then [] else [.prompt .s3]), .ok ()) := by
  cases hni : names.isEmpty <;> simp [stepS3, hni, hc]

theorem stepS3_noconfirm (p : Provider) (c : Prompt → Bool) (names : List String)
    (h : ∀ n, p.s3EmptyOutcome n = .ok ()) :
    stepS3 p c true names =
      ((if names.isEmpty then [] else [.emptiedS3 names]), .ok ()) := by
  cases hni : names.isEmpty <;> simp [stepS3, hni, empty_s3_buckets_ok _ h]

theorem stepEcr_snd_ok (p : Provider) (c : Prompt → Bool) (nc : Bool)
    (names : List String) (h : ∀ n, p.ecrEmptyOutcome n = .ok ()) :
    (stepEcr p c nc names).2 = .ok () := by
  cases hni : names.isEmpty <;> cases hcc : (nc || c .ecr) <;>
    simp [stepEcr, hni, hcc, empty_ecr_repositories_ok _ h]

theorem stepEcr_events (p : Provider) (c : Prompt → Bool) (nc : Bool)
    (names : List String) :
    ∀ e ∈ (stepEcr p c nc names).1, e = .prompt .ecr ∨ e = .emptiedEcr names := by
  intro e he
  cases hni : names.isEmpty <;> cases hnc : nc <;> cases hcs : c .ecr <;>
    simp [stepEcr, hni, hnc, hcs] at he <;> tauto

theorem stepEcr_declined (p : Provider) (c : Prompt → Bool) (names : List String)
    (hc : c .ecr = false) :
    stepEcr p c false names =
      ((if names.isEmpty then [] else [.prompt .ecr]), .ok ()) := by
  cases hni : names.isEmpty <;> simp [stepEcr, hni, hc]

theorem stepEcr_noconfirm (p : Provider) (c : Prompt → Bool) (names : List String)
    (h : ∀ n, p.ecrEmptyOutcome n = .ok ()) :
    stepEcr p c true names =
      ((if names.isEmpty then [] else [.emptiedEcr names]), .ok ()) := by
  cases hni : names.isEmpty <;> simp [stepEcr, hni, empty_ecr_repositories_ok _ h]

theorem stepLambda_snd_ok (p : Provider) (c : Prompt → Bool) (nc : Bool)
    (names : List String) : (stepLambda p c nc names).2 = .ok () := by
  cases hni : names.isEmpty <;> cases hcc : (nc || c .lambdas) <;>
    simp [stepLambda, hni, hcc]

theorem stepLambda_events (p : Provider) (c : Prompt → Bool) (nc : Bool)
    (names : List String) :
    ∀ e ∈ (stepLambda p c nc names).1,
      e = .prompt .lambdas ∨ e = .patchedLambdas names := by
  intro e he
  cases hni : names.isEmpty <;> cases hnc : nc <;> cases hcs : c .lambdas <;>
    simp [stepLambda, hni, hnc, hcs] at he <;> tauto

theorem stepLambda_declined (p : Provider) (c : Prompt → Bool)
    (names : List String) (hc : c .lambdas = false) :
    stepLambda p c false names =
      ((if names.isEmpty then [] else [.prompt .lambdas]), .ok ()) := by
  cases hni : names.isEmpty <;> simp [stepLambda, hni, hc]

theorem stepLambda_noconfirm (p : Provider) (c : Prompt → Bool)
    (names : List String) :
    stepLambda p c true names =
      ((if names.isEmpty then [] else [.patchedLambdas names]), .ok ()) := by
  cases hni : names.isEmpty <;> simp [stepLambda, hni]

theorem stepDdb_snd_ok (p : Provider) (c : Prompt → Bool) (nc : Bool)
    (names : List String) : (stepDdb p c nc names).2 = .ok () := by
  cases hni : names.isEmpty <;> cases hcc : (nc || c .ddb) <;>
    simp [stepDdb, hni, hcc]

theorem stepDdb_events (p : Provider) (c : Prompt → Bool) (nc : Bool)
    (names : List String) :
    ∀ e ∈ (stepDdb p c nc names).1,
      e = .prompt .ddb ∨ e = .unprotectedDdb names := by
  intro e he
  cases hni : names.isEmpty <;> cases hnc : nc <;> cases hcs : c .ddb <;>
    simp [stepDdb, hni, hnc, hcs] at he <;> tauto

theorem stepDdb_declined (p : Provider) (c : Prompt → Bool) (names : List String)
    (hc : c .ddb = false) :
    stepDdb p c false names =
      ((if names.isEmpty then [] else [.prompt .ddb]), .ok ()) := by
  cases hni : names.isEmpty <;> simp [stepDdb, hni, hc]

theorem stepDdb_noconfirm (p : Provider) (c : Prompt → Bool) (names : List String) :
    stepDdb p c true names =
      ((if names.isEmpty then [] else [.unprotectedDdb names]), .ok ()) := by
  cases hni : names.isEmpty <;> simp [stepDdb, hni]

theorem stepCfn_snd_ok (p : Provider) (c : Prompt → Bool) (nc : Bool)
    (names : List String) (hcc : (nc || c .cfn) = true)
    (h : ∀ n, p.cfnDeleteOutcome n = .success) :
    (stepCfn p c nc names).2 = .ok () := by
  cases hni : names.isEmpty <;>
    simp [stepCfn, hni, hcc, delete_resources_cfn_ok _ h]

theorem stepCfn_events (p : Provider) (c : Prompt → Bool) (nc : Bool)
    (names : List String) :
    ∀ e ∈ (stepCfn p c nc names).1,
      e = .prompt .cfn ∨ e = .deletedCfnStacks names := by
  intro e he
  cases hni : names.isEmpty <;> cases hnc : nc <;> cases hcs : c .cfn <;>
    simp [stepCfn, hni, hnc, hcs] at he <;> tauto

theorem stepCfn_declined (p : Provider) (c : Prompt → Bool) (names : List String)
    (hc : c .cfn = false) (hne : names ≠ []) :
    stepCfn p c false names = ([.prompt .cfn], .error .abort) := by
  have hni : names.isEmpty = false := by
    cases names with
    | nil => exact absurd rfl hne
    | cons a l => rfl
  simp [stepCfn, hni, hc]

theorem stepCfn_noconfirm (p : Provider) (c : Prompt → Bool) (names : List String)
    (h : ∀ n, p.cfnDeleteOutcome n = .success) :
    stepCfn p c true names =
      ((if names.isEmpty then [] else [.deletedCfnStacks names]), .ok ()) := by
  cases hni : names.isEmpty <;>
    simp [stepCfn, hni, delete_resources_cfn_ok _ h]

theorem stepUnmanaged_snd_ok (p : Provider) (c : Prompt → Bool) (nc : Bool)
    (u : UnmanagedResources) (rt : RType) (hp : p.AllOk) :
    (stepUnmanaged p c nc u rt).2 = .ok () := by
  cases hni : (unmanagedGet u rt).isEmpty <;>
    cases hcc : (nc || c (.unmanaged rt)) <;>
    simp [stepUnmanaged, hni, hcc,
      deleteNamesLoop_allok p rt (runDeleteMethod_ok p hp rt)]

theorem stepUnmanaged_events (p : Provider) (c : Prompt → Bool) (nc : Bool)
    (u : UnmanagedResources) (rt : RType) :
    ∀ e ∈ (stepUnmanaged p c nc u rt).1,
      e = .prompt (.unmanaged rt) ∨ e = .unmanagedStep rt (unmanagedGet u rt) ∨
        ∃ n, e = .deletedUnmanaged rt n := by
  intro e he
  cases hni : (unmanagedGet u rt).isEmpty <;> cases hnc : nc <;>
    cases hcu : c (.unmanaged rt) <;>
    simp [stepUnmanaged, hni, hnc, hcu] at he <;>
    first
    | tauto
    | (rcases he with rfl | rfl | hloop
       · simp
       · simp
       · obtain ⟨n, hn⟩ := deleteNamesLoop_events p rt _ e hloop
         exact Or.inr (Or.inr ⟨n, hn⟩))
    | (rcases he with rfl | hloop
       · simp
       · obtain ⟨n, hn⟩ := deleteNamesLoop_events p rt _ e hloop
         exact Or.inr (Or.inr ⟨n, hn⟩))

theorem stepUnmanaged_noconfirm (p : Provider) (c : Prompt → Bool)
    (u : UnmanagedResources) (rt : RType) (hp : p.AllOk) :
    stepUnmanaged p c true u rt =
      ((if (unmanagedGet u rt).isEmpty then []
        else Event.unmanagedStep rt (unmanagedGet u rt) ::
          (unmanagedGet u rt).map (Event.deletedUnmanaged rt)), .ok ()) := by
  cases hni : (unmanagedGet u rt).isEmpty <;>
    simp [stepUnmanaged, hni,
      deleteNamesLoop_allok p rt (runDeleteMethod_ok p hp rt)]

theorem stepUnmanaged_cfn (p : Provider) (c : Prompt → Bool) (nc : Bool)
    (u : UnmanagedResources) :
    stepUnmanaged p c nc u .cloudformation_stacks = ([], .ok ()) := rfl

theorem stepUnmanaged_ecr (p : Provider) (c : Prompt → Bool) (nc : Bool)
    (u : UnmanagedResources) :
    stepUnmanaged p c nc u .ecr_repositories = ([], .ok ()) := rfl

/-! ### Where events of a run can come from -/

theorem cleanup_env_result (p : Provider) (c : Prompt → Bool) (nc : Bool)
    (subs : List String) (inv inv2 : Inventory) (hpr : c .proceed = true) :
    (cleanup_env p c nc subs inv inv2).2 =
      (match (seqAll (cleanupSteps p c nc subs inv inv2)).2 with
       | .ok _ => RunResult.completed
       | .error .abort => .aborted
       | .error (.err e) => .errored e) := by
  unfold cleanup_env
  rw [if_pos hpr]

theorem cleanup_env_trace (p : Provider) (c : Prompt → Bool) (nc : Bool)
    (subs : List String) (inv inv2 : Inventory) (hpr : c .proceed = true) :
    (cleanup_env p c nc subs inv inv2).1 =
      Event.prompt .proceed :: (seqAll (cleanupSteps p c nc subs inv inv2)).1 := by
  unfold cleanup_env
  rw [if_pos hpr]

theorem cleanup_env_events (p : Provider) (c : Prompt → Bool) (nc : Bool)
    (subs : List String) (inv inv2 : Inventory) :
    ∀ e ∈ (cleanup_env p c nc subs inv inv2).1,
      e = .prompt .proceed ∨ ∃ a ∈ cleanupSteps p c nc subs inv inv2, e ∈ a.1 := by
  intro e he
  unfold cleanup_env at he
  by_cases hpr : c .proceed = true
  · rw [if_pos hpr] at he
    rcases List.mem_cons.1 he with rfl | hbody
    · exact Or.inl rfl
    · exact Or.inr (mem_seqAll e _ hbody)
  · rw [if_neg hpr] at he
    rcases List.mem_cons.1 he with rfl | hbody
    · exact Or.inl rfl
    · simp at hbody

/-- The resource-type attached to an unmanaged-pass event, if any. -/
def eventRType : Event → Option RType
  | .prompt (.unmanaged rt) => some rt
  | .unmanagedStep rt _ => some rt
  | .deletedUnmanaged rt _ => some rt
  | _ => none

theorem cleanup_env_eventRType (p : Provider) (c : Prompt → Bool) (nc : Bool)
    (subs : List String) (inv inv2 : Inventory) (e : Event) (rt : RType)
    (he : e ∈ (cleanup_env p c nc subs inv inv2).1)
    (hfl : eventRType e = some rt) :
    rt = .s3_buckets ∨ rt = .ssm_params ∨ rt = .log_groups := by
  rcases cleanup_env_events p c nc subs inv inv2 e he with rfl | ⟨a, ha, hae⟩
  · simp [eventRType] at hfl
  · simp only [cleanupSteps, List.mem_cons, List.not_mem_nil, or_false] at ha
    rcases ha with rfl | rfl | rfl | rfl | rfl | rfl
    · rcases stepS3_events _ _ _ _ e hae with rfl | rfl <;> simp [eventRType] at hfl
    · rcases stepEcr_events _ _ _ _ e hae with rfl | rfl <;> simp [eventRType] at hfl
    · rcases stepLambda_events _ _ _ _ e hae with rfl | rfl <;>
        simp [eventRType] at hfl
    · rcases stepDdb_events _ _ _ _ e hae with rfl | rfl <;> simp [eventRType] at hfl
    · rcases stepCfn_events _ _ _ _ e hae with rfl | rfl <;> simp [eventRType] at hfl
    · rw [unmanagedPass] at hae
      obtain ⟨b, hb, hbe⟩ := mem_seqAll e _ hae
      simp only [List.mem_map] at hb
      obtain ⟨rt2, hrt2, rfl⟩ := hb
      simp only [deleteMethodsKeys, List.mem_cons, List.not_mem_nil, or_false] at hrt2
      rcases hrt2 with rfl | rfl | rfl | rfl | rfl
      · rw [stepUnmanaged_cfn] at hbe
        simp at hbe
      · rcases stepUnmanaged_events _ _ _ _ _ e hbe with rfl | rfl | ⟨n, rfl⟩ <;>
          simp_all [eventRType]
      · rw [stepUnmanaged_ecr] at hbe
        simp at hbe
      · rcases stepUnmanaged_events _ _ _ _ _ e hbe with rfl | rfl | ⟨n, rfl⟩ <;>
          simp_all [eventRType]
      · rcases stepUnmanaged_events _ _ _ _ _ e hbe with rfl | rfl | ⟨n, rfl⟩ <;>
          simp_all [eventRType]

theorem emptiedS3_only_from_stepS3 (p : Provider) (c : Prompt → Bool) (nc : Bool)
    (subs : List String) (inv inv2 : Inventory) (ns : List String)
    (h : Event.emptiedS3 ns ∈ (cleanup_env p c nc subs inv inv2).1) :
    Event.emptiedS3 ns ∈ (stepS3 p c nc (gather_resources subs inv).s3_buckets).1 := by
  rcases cleanup_env_events p c nc subs inv inv2 _ h with heq | ⟨a, ha, hae⟩
  · exact absurd heq (by simp)
  · simp only [cleanupSteps, List.mem_cons, List.not_mem_nil, or_false] at ha
    rcases ha with rfl | rfl | rfl | rfl | rfl | rfl
    · exact hae
    · rcases stepEcr_events _ _ _ _ _ hae with h2 | h2 <;> simp at h2
    · rcases stepLambda_events _ _ _ _ _ hae with h2 | h2 <;> simp at h2
    · rcases stepDdb_events _ _ _ _ _ hae with h2 | h2 <;> simp at h2
    · rcases stepCfn_events _ _ _ _ _ hae with h2 | h2 <;> simp at h2
    · rw [unmanagedPass] at hae
      obtain ⟨b, hb, hbe⟩ := mem_seqAll _ _ hae
      simp only [List.mem_map] at hb
      obtain ⟨rt, hrt, rfl⟩ := hb
      rcases stepUnmanaged_events _ _ _ _ _ _ hbe with h2 | h2 | ⟨n, h2⟩ <;>
        simp at h2

theorem emptiedEcr_only_from_stepEcr (p : Provider) (c : Prompt → Bool) (nc : Bool)
    (subs : List String) (inv inv2 : Inventory) (ns : List String)
    (h : Event.emptiedEcr ns ∈ (cleanup_env p c nc subs inv inv2).1) :
    Event.emptiedEcr ns ∈
      (stepEcr p c nc (gather_resources subs inv).ecr_repositories).1 := by
  rcases cleanup_env_events p c nc subs inv inv2 _ h with heq | ⟨a, ha, hae⟩
  · exact absurd heq (by simp)
  · simp only [cleanupSteps, List.mem_cons, List.not_mem_nil, or_false] at ha
    rcases ha with rfl | rfl | rfl | rfl | rfl | rfl
    · rcases stepS3_events _ _ _ _ _ hae with h2 | h2 <;> simp at h2
    · exact hae
    · rcases stepLambda_events _ _ _ _ _ hae with h2 | h2 <;> simp at h2
    · rcases stepDdb_events _ _ _ _ _ hae with h2 | h2 <;> simp at h2
    · rcases stepCfn_events _ _ _ _ _ hae with h2 | h2 <;> simp at h2
    · rw [unmanagedPass] at hae
      obtain ⟨b, hb, hbe⟩ := mem_seqAll _ _ hae
      simp only [List.mem_map] at hb
      obtain ⟨rt, hrt, rfl⟩ := hb
      rcases stepUnmanaged_events _ _ _ _ _ _ hbe with h2 | h2 | ⟨n, h2⟩ <;>
        simp at h2

theorem patchedLambdas_only_from_stepLambda (p : Provider) (c : Prompt → Bool)
    (nc : Bool) (subs : List String) (inv inv2 : Inventory) (ns : List String)
    (h : Event.patchedLambdas ns ∈ (cleanup_env p c nc subs inv inv2).1) :
    Event.patchedLambdas ns ∈
      (stepLambda p c nc (gather_resources subs inv).vpc_lambdas).1 := by
  rcases cleanup_env_events p c nc subs inv inv2 _ h with heq | ⟨a, ha, hae⟩
  · exact absurd heq (by simp)
  · simp only [cleanupSteps, List.mem_cons, List.not_mem_nil, or_false] at ha
    rcases ha with rfl | rfl | rfl | rfl | rfl | rfl
    · rcases stepS3_events _ _ _ _ _ hae with h2 | h2 <;> simp at h2
    · rcases stepEcr_events _ _ _ _ _ hae with h2 | h2 <;> simp at h2
    · exact hae
    · rcases stepDdb_events _ _ _ _ _ hae with h2 | h2 <;> simp at h2
    · rcases stepCfn_events _ _ _ _ _ hae with h2 | h2 <;> simp at h2
    · rw [unmanagedPass] at hae
      obtain ⟨b, hb, hbe⟩ := mem_seqAll _ _ hae
      simp only [List.mem_map] at hb
      obtain ⟨rt, hrt, rfl⟩ := hb
      rcases stepUnmanaged_events _ _ _ _ _ _ hbe with h2 | h2 | ⟨n, h2⟩ <;>
        simp at h2

theorem unprotectedDdb_only_from_stepDdb (p : Provider) (c : Prompt → Bool)
    (nc : Bool) (subs : List String) (inv inv2 : Inventory) (ns : List String)
    (h : Event.unprotectedDdb ns ∈ (cleanup_env p c nc subs inv inv2).1) :
    Event.unprotectedDdb ns ∈
      (stepDdb p c nc (gather_resources subs inv).ddb_tables).1 := by
  rcases cleanup_env_events p c nc subs inv inv2 _ h with heq | ⟨a, ha, hae⟩
  · exact absurd heq (by simp)
  · simp only [cleanupSteps, List.mem_cons, List.not_mem_nil, or_false] at ha
    rcases ha with rfl | rfl | rfl | rfl | rfl | rfl
    · rcases stepS3_events _ _ _ _ _ hae with h2 | h2 <;> simp at h2
    · rcases stepEcr_events _ _ _ _ _ hae with h2 | h2 <;> simp at h2
    · rcases stepLambda_events _ _ _ _ _ hae with h2 | h2 <;> simp at h2
    · exact hae
    · rcases stepCfn_events _ _ _ _ _ hae with h2 | h2 <;> simp at h2
    · rw [unmanagedPass] at hae
      obtain ⟨b, hb, hbe⟩ := mem_seqAll _ _ hae
      simp only [List.mem_map] at hb
      obtain ⟨rt, hrt, rfl⟩ := hb
      rcases stepUnmanaged_events _ _ _ _ _ _ hbe with h2 | h2 | ⟨n, h2⟩ <;>
        simp at h2

theorem isEmpty_false_of_ne_nil {α : Type} {l : List α} (h : l ≠ []) :
    l.isEmpty = false := by
  cases l with
  | nil => exact absurd rfl h
  | cons a t => rfl

theorem mem_deleteMethodsKeys (rt : RType) : rt ∈ deleteMethodsKeys := by
  cases rt <;> simp [deleteMethodsKeys]

theorem cleanupSteps_all_ok (p : Provider) (c : Prompt → Bool) (nc : Bool)
    (subs : List String) (inv inv2 : Inventory) (hp : p.AllOk)
    (hcfn : (nc || c .cfn) = true ∨
      (gather_resources subs inv).cloudformation_stacks = []) :
    ∀ a ∈ cleanupSteps p c nc subs inv inv2, a.2 = .ok () := by
  intro a ha
  simp only [cleanupSteps, List.mem_cons, List.not_mem_nil, or_false] at ha
  rcases ha with rfl | rfl | rfl | rfl | rfl | rfl
  · exact stepS3_snd_ok p c nc _ hp.1
  · exact stepEcr_snd_ok p c nc _ hp.2.2.1
  · exact stepLambda_snd_ok p c nc _
  · exact stepDdb_snd_ok p c nc _
  · rcases hcfn with hcc | hemp
    · exact stepCfn_snd_ok p c nc _ hcc hp.2.2.2.2.1
    · rw [hemp]; rfl
  · rw [unmanagedPass]
    refine seqAll_snd_ok _ ?_
    intro b hb
    simp only [List.mem_map] at hb
    obtain ⟨rt, hrt, rfl⟩ := hb
    exact stepUnmanaged_snd_ok p c nc _ rt hp

theorem cleanup_env_completed (p : Provider) (c : Prompt → Bool) (nc : Bool)
    (subs : List String) (inv inv2 : Inventory) (hp : p.AllOk)
    (hpr : c .proceed = true)
    (hcfn : (nc || c .cfn) = true ∨
      (gather_resources subs inv).cloudformation_stacks = []) :
    (cleanup_env p c nc subs inv inv2).2 = .completed := by
  rw [cleanup_env_result p c nc subs inv inv2 hpr,
    seqAll_snd_ok _ (cleanupSteps_all_ok p c nc subs inv inv2 hp hcfn)]

/-! ### Claim C9 -/

/-- C9: the unmanaged inventory carries only the `s3_buckets`, `ssm_params`
and `log_groups` keys, so the second pass of any run never prompts for nor
invokes the CloudFormation or ECR deleters: those keys look up to `[]`. -/
theorem C9_unmanaged_frame (p : Provider) (c : Prompt → Bool) (nc : Bool)
    (subs : List String) (inv inv2 : Inventory) :
    unmanagedGet (gather_unmanaged_resources subs inv2) .cloudformation_stacks
      = [] ∧
    unmanagedGet (gather_unmanaged_resources subs inv2) .ecr_repositories = [] ∧
    Event.prompt (.unmanaged .cloudformation_stacks) ∉
      (cleanup_env p c nc subs inv inv2).1 ∧
    Event.prompt (.unmanaged .ecr_repositories) ∉
      (cleanup_env p c nc subs inv inv2).1 ∧
    (∀ ns, Event.unmanagedStep .cloudformation_stacks ns ∉
      (cleanup_env p c nc subs inv inv2).1) ∧
    (∀ ns, Event.unmanagedStep .ecr_repositories ns ∉
      (cleanup_env p c nc subs inv inv2).1) ∧
    (∀ n, Event.deletedUnmanaged .cloudformation_stacks n ∉
      (cleanup_env p c nc subs inv inv2).1) ∧
    (∀ n, Event.deletedUnmanaged .ecr_repositories n ∉
      (cleanup_env p c nc subs inv inv2).1) := by
  refine ⟨rfl, rfl, fun h => ?_, fun h => ?_, fun ns h => ?_, fun ns h => ?_,
    fun n h => ?_, fun n h => ?_⟩
  · rcases cleanup_env_eventRType p c nc subs inv inv2 _ .cloudformation_stacks
      h rfl with h2 | h2 | h2 <;> exact absurd h2 (by decide)
  · rcases cleanup_env_eventRType p c nc subs inv inv2 _ .ecr_repositories
      h rfl with h2 | h2 | h2 <;> exact absurd h2 (by decide)
  · rcases cleanup_env_eventRType p c nc subs inv inv2 _ .cloudformation_stacks
      h rfl with h2 | h2 | h2 <;> exact absurd h2 (by decide)
  · rcases cleanup_env_eventRType p c nc subs inv inv2 _ .ecr_repositories
      h rfl with h2 | h2 | h2 <;> exact absurd h2 (by decide)
  · rcases cleanup_env_eventRType p c nc subs inv inv2 _ .cloudformation_stacks
      h rfl with h2 | h2 | h2 <;> exact absurd h2 (by decide)
  · rcases cleanup_env_eventRType p c nc subs inv inv2 _ .ecr_repositories
      h rfl with h2 | h2 | h2 <;> exact absurd h2 (by decide)

/-- The provider on which every failure-relevant call succeeds. -/
def providerOk : Provider :=
  ⟨fun _ => .ok (), fun _ => .ok (), fun _ => .ok (), fun _ => .ok (),
   fun _ => .ok (), fun _ => .ok (), fun _ => .success, fun _ => .ok (),
   fun _ => .ok ()⟩

theorem providerOk_allOk : providerOk.AllOk :=
  ⟨fun _ => rfl, fun _ => rfl, fun _ => rfl, fun _ => rfl, fun _ => rfl,
   fun _ => rfl, fun _ => rfl⟩

/-- A small sample inventory with one resource of each kind matching
`env-a`. -/
def invS : Inventory :=
  ⟨[[⟨"env-a-app", "CREATE_COMPLETE", 2, none⟩,
     ⟨"env-a-db", "CREATE_COMPLETE", 1, none⟩]],
   [⟨"env-a-bucket"⟩],
   [[⟨"env-a-repo"⟩]],
   [[⟨"env-a-fn", some ⟨some "vpc-123"⟩⟩]],
   [["env-a-table"]],
   [[⟨"/env-a/param"⟩]],
   [[⟨"env-a-logs"⟩]]⟩

/-- C9 witness: on a concrete full run, the second pass issues no
CloudFormation or ECR prompt. -/
theorem C9_unmanaged_frame_witness :
    Event.prompt (.unmanaged .cloudformation_stacks) ∉
      (cleanup_env providerOk (fun _ => true) false ["env-a"] invS invS).1 ∧
    Event.prompt (.unmanaged .ecr_repositories) ∉
      (cleanup_env providerOk (fun _ => true) false ["env-a"] invS invS).1 :=
  ⟨(C9_unmanaged_frame providerOk (fun _ => true) false ["env-a"]
      invS invS).2.2.1,
   (C9_unmanaged_frame providerOk (fun _ => true) false ["env-a"]
      invS invS).2.2.2.1⟩

/-! ### Claim C4: prompt semantics of the orchestrator -/

theorem cleanup_env_aborted (p : Provider) (c : Prompt → Bool)
    (subs : List String) (inv inv2 : Inventory) (hp : p.AllOk)
    (hpr : c .proceed = true) (hcfn : c .cfn = false)
    (hne : (gather_resources subs inv).cloudformation_stacks ≠ []) :
    (cleanup_env p c false subs inv inv2).2 = .aborted := by
  have hb : (seqAll (cleanupSteps p c false subs inv inv2)).2 = .error .abort := by
    simp only [cleanupSteps, seqAll]
    rw [seqRun_snd_of_ok _ _ (stepS3_snd_ok p c false _ hp.1)]
    rw [seqRun_snd_of_ok _ _ (stepEcr_snd_ok p c false _ hp.2.2.1)]
    rw [seqRun_snd_of_ok _ _ (stepLambda_snd_ok p c false _)]
    rw [seqRun_snd_of_ok _ _ (stepDdb_snd_ok p c false _)]
    exact seqRun_snd_of_error _ _ _ (by rw [stepCfn_declined p c _ hcfn hne])
  rw [cleanup_env_result p c false subs inv inv2 hpr, hb]

theorem cleanup_env_skip_s3 (p : Provider) (c : Prompt → Bool)
    (subs : List String) (inv inv2 : Inventory) (hp : p.AllOk)
    (hpr : c .proceed = true) (hcfnY : c .cfn = true) (hs3 : c .s3 = false) :
    (cleanup_env p c false subs inv inv2).2 = .completed ∧
    ∀ ns, Event.emptiedS3 ns ∉ (cleanup_env p c false subs inv inv2).1 := by
  refine ⟨cleanup_env_completed p c false subs inv inv2 hp hpr
    (Or.inl (by simp [hcfnY])), ?_⟩
  intro ns h
  have h2 := emptiedS3_only_from_stepS3 p c false subs inv inv2 ns h
  rw [stepS3_declined p c _ hs3] at h2
  revert h2
  split <;> simp

theorem cleanup_env_skip_ecr (p : Provider) (c : Prompt → Bool)
    (subs : List String) (inv inv2 : Inventory) (hp : p.AllOk)
    (hpr : c .proceed = true) (hcfnY : c .cfn = true) (hecr : c .ecr = false) :
    (cleanup_env p c false subs inv inv2).2 = .completed ∧
    ∀ ns, Event.emptiedEcr ns ∉ (cleanup_env p c false subs inv inv2).1 := by
  refine ⟨cleanup_env_completed p c false subs inv inv2 hp hpr
    (Or.inl (by simp [hcfnY])), ?_⟩
  intro ns h
  have h2 := emptiedEcr_only_from_stepEcr p c false subs inv inv2 ns h
  rw [stepEcr_declined p c _ hecr] at h2
  revert h2
  split <;> simp

theorem cleanup_env_skip_lambda (p : Provider) (c : Prompt → Bool)
    (subs : List String) (inv inv2 : Inventory) (hp : p.AllOk)
    (hpr : c .proceed = true) (hcfnY : c .cfn = true) (hlam : c .lambdas = false) :
    (cleanup_env p c false subs inv inv2).2 = .completed ∧
    ∀ ns, Event.patchedLambdas ns ∉ (cleanup_env p c false subs inv inv2).1 := by
  refine ⟨cleanup_env_completed p c false subs inv inv2 hp hpr
    (Or.inl (by simp [hcfnY])), ?_⟩
  intro ns h
  have h2 := patchedLambdas_only_from_stepLambda p c false subs inv inv2 ns h
  rw [stepLambda_declined p c _ hlam] at h2
  revert h2
  split <;> simp

theorem cleanup_env_skip_ddb (p : Provider) (c : Prompt → Bool)
    (subs : List String) (inv inv2 : Inventory) (hp : p.AllOk)
    (hpr : c .proceed = true) (hcfnY : c .cfn = true) (hddb : c .ddb = false) :
    (cleanup_env p c false subs inv inv2).2 = .completed ∧
    ∀ ns, Event.unprotectedDdb ns ∉ (cleanup_env p c false subs inv inv2).1 := by
  refine ⟨cleanup_env_completed p c false subs inv inv2 hp hpr
    (Or.inl (by simp [hcfnY])), ?_⟩
  intro ns h
  have h2 := unprotectedDdb_only_from_stepDdb p c false subs inv inv2 ns h
  rw [stepDdb_declined p c _ hddb] at h2
  revert h2
  split <;> simp

theorem cleanup_env_noconfirm (p : Provider) (c : Prompt → Bool)
    (subs : List String) (inv inv2 : Inventory) (hp : p.AllOk)
    (hpr : c .proceed = true) :
    (cleanup_env p c true subs inv inv2).2 = .completed ∧
    (∀ q, Event.prompt q ∈ (cleanup_env p c true subs inv inv2).1 →
      q = .proceed) ∧
    ((gather_resources subs inv).s3_buckets ≠ [] →
      Event.emptiedS3 (gather_resources subs inv).s3_buckets ∈
        (cleanup_env p c true subs inv inv2).1) ∧
    ((gather_resources subs inv).ecr_repositories ≠ [] →
      Event.emptiedEcr (gather_resources subs inv).ecr_repositories ∈
        (cleanup_env p c true subs inv inv2).1) ∧
    ((gather_resources subs inv).vpc_lambdas ≠ [] →
      Event.patchedLambdas (gather_resources subs inv).vpc_lambdas ∈
        (cleanup_env p c true subs inv inv2).1) ∧
    ((gather_resources subs inv).ddb_tables ≠ [] →
      Event.unprotectedDdb (gather_resources subs inv).ddb_tables ∈
        (cleanup_env p c true subs inv inv2).1) ∧
    ((gather_resources subs inv).cloudformation_stacks ≠ [] →
      Event.deletedCfnStacks (gather_resources subs inv).cloudformation_stacks ∈
        (cleanup_env p c true subs inv inv2).1) ∧
    (∀ rt, unmanagedGet (gather_unmanaged_resources subs inv2) rt ≠ [] →
      Event.unmanagedStep rt
          (unmanagedGet (gather_unmanaged_resources subs inv2) rt) ∈
        (cleanup_env p c true subs inv inv2).1) := by
  have hall := cleanupSteps_all_ok p c true subs inv inv2 hp (Or.inl (by simp))
  have htr : (cleanup_env p c true subs inv inv2).1 =
      Event.prompt .proceed ::
        ((cleanupSteps p c true subs inv inv2).map Prod.fst).flatten := by
    rw [cleanup_env_trace p c true subs inv inv2 hpr, seqAll_of_all_ok _ hall]
  refine ⟨cleanup_env_completed p c true subs inv inv2 hp hpr (Or.inl (by simp)),
    ?_, ?_, ?_, ?_, ?_, ?_, ?_⟩
  · intro q h
    rcases cleanup_env_events p c true subs inv inv2 _ h with heq | ⟨a, ha, hae⟩
    · simpa using heq
    · simp only [cleanupSteps, List.mem_cons, List.not_mem_nil, or_false] at ha
      rcases ha with rfl | rfl | rfl | rfl | rfl | rfl
      · revert hae
        rw [stepS3_noconfirm p c _ hp.1]
        dsimp only
        split <;> simp
      · revert hae
        rw [stepEcr_noconfirm p c _ hp.2.2.1]
        dsimp only
        split <;> simp
      · revert hae
        rw [stepLambda_noconfirm p c _]
        dsimp only
        split <;> simp
      · revert hae
        rw [stepDdb_noconfirm p c _]
        dsimp only
        split <;> simp
      · revert hae
        rw [stepCfn_noconfirm p c _ hp.2.2.2.2.1]
        dsimp only
        split <;> simp
      · rw [unmanagedPass] at hae
        obtain ⟨b, hb, hbe⟩ := mem_seqAll _ _ hae
        simp only [List.mem_map] at hb
        obtain ⟨rt, hrt, rfl⟩ := hb
        revert hbe
        rw [stepUnmanaged_noconfirm p c _ rt hp]
        dsimp only
        split <;> simp
  · intro hne
    rw [htr]
    refine List.mem_cons_of_mem _ (List.mem_flatten.2
      ⟨(stepS3 p c true (gather_resources subs inv).s3_buckets).1, ?_, ?_⟩)
    · simp [cleanupSteps]
    · rw [stepS3_noconfirm p c _ hp.1]
      simp [isEmpty_false_of_ne_nil hne]
  · intro hne
    rw [htr]
    refine List.mem_cons_of_mem _ (List.mem_flatten.2
      ⟨(stepEcr p c true (gather_resources subs inv).ecr_repositories).1, ?_, ?_⟩)
    · simp [cleanupSteps]
    · rw [stepEcr_noconfirm p c _ hp.2.2.1]
      simp [isEmpty_false_of_ne_nil hne]
  · intro hne
    rw [htr]
    refine List.mem_cons_of_mem _ (List.mem_flatten.2
      ⟨(stepLambda p c true (gather_resources subs inv).vpc_lambdas).1, ?_, ?_⟩)
    · simp [cleanupSteps]
    · rw [stepLambda_noconfirm p c _]
      simp [isEmpty_false_of_ne_nil hne]
  · intro hne
    rw [htr]
    refine List.mem_cons_of_mem _ (List.mem_flatten.2
      ⟨(stepDdb p c true (gather_resources subs inv).ddb_tables).1, ?_, ?_⟩)
    · simp [cleanupSteps]
    · rw [stepDdb_noconfirm p c _]
      simp [isEmpty_false_of_ne_nil hne]
  · intro hne
    rw [htr]
    refine List.mem_cons_of_mem _ (List.mem_flatten.2
      ⟨(stepCfn p c true
          (gather_resources subs inv).cloudformation_stacks).1, ?_, ?_⟩)
    · simp [cleanupSteps]
    · rw [stepCfn_noconfirm p c _ hp.2.2.2.2.1]
      simp [isEmpty_false_of_ne_nil hne]
  · intro rt hne
    rw [htr]
    refine List.mem_cons_of_mem _ (List.mem_flatten.2
      ⟨(unmanagedPass p c true (gather_unmanaged_resources subs inv2)).1, ?_, ?_⟩)
    · simp [cleanupSteps]
    · rw [unmanagedPass]
      have hallu : ∀ b ∈ deleteMethodsKeys.map
          (stepUnmanaged p c true (gather_unmanaged_resources subs inv2)),
          b.2 = .ok () := by
        intro b hb
        simp only [List.mem_map] at hb
        obtain ⟨rt2, hrt2, rfl⟩ := hb
        exact stepUnmanaged_snd_ok p c true _ rt2 hp
      rw [seqAll_of_all_ok _ hallu]
      refine List.mem_flatten.2
        ⟨(stepUnmanaged p c true (gather_unmanaged_resources subs inv2) rt).1,
          ?_, ?_⟩
      · simp only [List.map_map]
        exact List.mem_map.2 ⟨rt, mem_deleteMethodsKeys rt, rfl⟩
      · rw [stepUnmanaged_noconfirm p c _ rt hp]
        simp [isEmpty_false_of_ne_nil hne]

/-- C4: declining the CloudFormation prompt aborts the whole run; declining
the S3, ECR, Lambda or DynamoDB prompt skips only that step and the run
completes; with the no-confirm flag, only the initial prompt is issued and
every step with gathered resources proceeds. -/
theorem C4_prompt_semantics :
    (∀ (p : Provider) (c : Prompt → Bool) (subs : List String)
        (inv inv2 : Inventory), p.AllOk → c .proceed = true → c .cfn = false →
      (gather_resources subs inv).cloudformation_stacks ≠ [] →
      (cleanup_env p c false subs inv inv2).2 = .aborted) ∧
    (∀ (p : Provider) (c : Prompt → Bool) (subs : List String)
        (inv inv2 : Inventory), p.AllOk → c .proceed = true → c .cfn = true →
      c .s3 = false →
      (cleanup_env p c false subs inv inv2).2 = .completed ∧
      ∀ ns, Event.emptiedS3 ns ∉ (cleanup_env p c false subs inv inv2).1) ∧
    (∀ (p : Provider) (c : Prompt → Bool) (subs : List String)
        (inv inv2 : Inventory), p.AllOk → c .proceed = true → c .cfn = true →
      c .ecr = false →
      (cleanup_env p c false subs inv inv2).2 = .completed ∧
      ∀ ns, Event.emptiedEcr ns ∉ (cleanup_env p c false subs inv inv2).1) ∧
    (∀ (p : Provider) (c : Prompt → Bool) (subs : List String)
        (inv inv2 : Inventory), p.AllOk → c .proceed = true → c .cfn = true →
      c .lambdas = false →
      (cleanup_env p c false subs inv inv2).2 = .completed ∧
      ∀ ns, Event.patchedLambdas ns ∉ (cleanup_env p c false subs inv inv2).1) ∧
    (∀ (p : Provider) (c : Prompt → Bool) (subs : List String)
        (inv inv2 : Inventory), p.AllOk → c .proceed = true → c .cfn = true →
      c .ddb = false →
      (cleanup_env p c false subs inv inv2).2 = .completed ∧
      ∀ ns, Event.unprotectedDdb ns ∉ (cleanup_env p c false subs inv inv2).1) ∧
    (∀ (p : Provider) (c : Prompt → Bool) (subs : List String)
        (inv inv2 : Inventory), p.AllOk → c .proceed = true →
      (cleanup_env p c true subs inv inv2).2 = .completed ∧
      (∀ q, Event.prompt q ∈ (cleanup_env p c true subs inv inv2).1 →
        q = .proceed) ∧
      ((gather_resources subs inv).s3_buckets ≠ [] →
        Event.emptiedS3 (gather_resources subs inv).s3_buckets ∈
          (cleanup_env p c true subs inv inv2).1) ∧
      ((gather_resources subs inv).ecr_repositories ≠ [] →
        Event.emptiedEcr (gather_resources subs inv).ecr_repositories ∈
          (cleanup_env p c true subs inv inv2).1) ∧
      ((gather_resources subs inv).vpc_lambdas ≠ [] →
        Event.patchedLambdas (gather_resources subs inv).vpc_lambdas ∈
          (cleanup_env p c true subs inv inv2).1) ∧
      ((gather_resources subs inv).ddb_tables ≠ [] →
        Event.unprotectedDdb (gather_resources subs inv).ddb_tables ∈
          (cleanup_env p c true subs inv inv2).1) ∧
      ((gather_resources subs inv).cloudformation_stacks ≠ [] →
        Event.deletedCfnStacks
            (gather_resources subs inv).cloudformation_stacks ∈
          (cleanup_env p c true subs inv inv2).1) ∧
      (∀ rt, unmanagedGet (gather_unmanaged_resources subs inv2) rt ≠ [] →
        Event.unmanagedStep rt
            (unmanagedGet (gather_unmanaged_resources subs inv2) rt) ∈
          (cleanup_env p c true subs inv inv2).1)) :=
  ⟨fun p c subs inv inv2 hp hpr hcfn hne =>
      cleanup_env_aborted p c subs inv inv2 hp hpr hcfn hne,
   fun p c subs inv inv2 hp hpr hcfnY hs3 =>
      cleanup_env_skip_s3 p c subs inv inv2 hp hpr hcfnY hs3,
   fun p c subs inv inv2 hp hpr hcfnY hecr =>
      cleanup_env_skip_ecr p c subs inv inv2 hp hpr hcfnY hecr,
   fun p c subs inv inv2 hp hpr hcfnY hlam =>
      cleanup_env_skip_lambda p c subs inv inv2 hp hpr hcfnY hlam,
   fun p c subs inv inv2 hp hpr hcfnY hddb =>
      cleanup_env_skip_ddb p c subs inv inv2 hp hpr hcfnY hddb,
   fun p c subs inv inv2 hp hpr =>
      cleanup_env_noconfirm p c subs inv inv2 hp hpr⟩

/-- C4 witness: on the sample inventory, declining only the CloudFormation
prompt aborts; declining only the S3 prompt completes without emptying; the
no-confirm run completes and empties the gathered buckets. -/
theorem C4_prompt_semantics_witness :
    (cleanup_env providerOk (fun q => q == Prompt.proceed) false ["env-a"]
      invS invS).2 = .aborted ∧
    ((cleanup_env providerOk (fun q => !(q == Prompt.s3)) false ["env-a"]
      invS invS).2 = .completed ∧
     Event.emptiedS3 ["env-a-bucket"] ∉
      (cleanup_env providerOk (fun q => !(q == Prompt.s3)) false ["env-a"]
        invS invS).1) ∧
    ((cleanup_env providerOk (fun _ => true) true ["env-a"]
      invS invS).2 = .completed ∧
     Event.emptiedS3 (gather_resources ["env-a"] invS).s3_buckets ∈
      (cleanup_env providerOk (fun _ => true) true ["env-a"] invS invS).1) := by
  refine ⟨?_, ⟨?_, ?_⟩, ⟨?_, ?_⟩⟩
  · exact C4_prompt_semantics.1 providerOk _ ["env-a"] invS invS
      providerOk_allOk (by decide) (by decide) (by decide)
  · exact (C4_prompt_semantics.2.1 providerOk _ ["env-a"] invS invS
      providerOk_allOk (by decide) (by decide) (by decide)).1
  · exact (C4_prompt_semantics.2.1 providerOk _ ["env-a"] invS invS
      providerOk_allOk (by decide) (by decide) (by decide)).2 ["env-a-bucket"]
  · exact (C4_prompt_semantics.2.2.2.2.2 providerOk _ ["env-a"] invS invS
      providerOk_allOk (by decide)).1
  · exact (C4_prompt_semantics.2.2.2.2.2 providerOk _ ["env-a"] invS invS
      providerOk_allOk (by decide)).2.2.1 (by decide)

end Cfncli
